import Mathlib

/- Shallow embedding of the invoice/quote core of the ZenBilling business
   microservice (invoice.service, quote.service, company.service).
   JavaScript numbers are modelled as exact rationals, JavaScript Date
   values as integer millisecond timestamps, optional (possibly undefined)
   fields as Option, and stateful database code as explicit state passing.
   JavaScript truthiness (0, "" and undefined are falsy; every Date object
   and every array, including the empty ones, is truthy) is modelled
   explicitly by the jsOr* helpers below. -/

/-- JavaScript truthiness of an optional number: undefined and 0 are falsy. -/
def truthyNum (o : Option ℚ) : Bool :=
  match o with
  | none => false
  | some v => decide (v ≠ 0)

/-- Model of the JavaScript expression x || d for an optional number x:
the default is taken when x is undefined or 0. -/
def jsOrNum (o : Option ℚ) (d : ℚ) : ℚ :=
  match o with
  | none => d
  | some v => if v = 0 then d else v

/-- Model of x || d for an optional integer x (0 is falsy). -/
def jsOrInt (o : Option Int) (d : Int) : Int :=
  match o with
  | none => d
  | some v => if v = 0 then d else v

/-- Model of x || d for an optional natural number x (0 is falsy). -/
def jsOrNat (o : Option Nat) (d : Nat) : Nat :=
  match o with
  | none => d
  | some v => if v = 0 then d else v

/-- Model of x || d for an optional string x (the empty string is falsy). -/
def jsOrStr (o : Option String) (d : String) : String :=
  match o with
  | none => d
  | some s => if s = "" then d else s

/-- Model of x || y where both sides are optional strings. -/
def jsOrOptStr (o : Option String) (d : Option String) : Option String :=
  match o with
  | none => d
  | some s => if s = "" then d else some s

/-- One raw line item as supplied to the services (the fields of the
items array of ICreateInvoiceRequest, all numeric values as rationals). -/
structure RawItem where
  product_id : Option String
  name : String
  description : Option String
  quantity : ℚ
  unit : Option String
  unit_price_excluding_tax : ℚ
  discount_percentage : Option ℚ
  discount_amount : Option ℚ
  vat_rate : String
  sort_order : Option Nat
deriving DecidableEq, Repr

/-- A line item after the totals calculation: the spread ...item of the
source keeps every raw field and adds the two derived totals. -/
structure CalcItem where
  item : RawItem
  total_excluding_tax : ℚ
  total_including_tax : ℚ
deriving DecidableEq, Repr

/-- The document totals returned by the calculators. -/
structure CalcTotals where
  totalExcludingTax : ℚ
  totalTax : ℚ
  totalIncludingTax : ℚ
deriving DecidableEq, Repr

namespace InvoiceService

/-- The fixed rates table literal inside InvoiceService.getVatRateValue,
as a partial lookup (Record access yields undefined on a missing key). -/
def vatRates (vatRate : String) : Option ℚ :=
  if vatRate = "ZERO" then some 0
  else if vatRate = "REDUCED_1" then some (21 / 10)
  else if vatRate = "REDUCED_2" then some (55 / 10)
  else if vatRate = "REDUCED_3" then some 10
  else if vatRate = "STANDARD" then some 20
  else if vatRate = "EXPORT" then some 0
  else none

/-- InvoiceService.getVatRateValue: the source returns
rates[vatRate] || 20.0, so both a missing key and a 0 entry fall back. -/
def getVatRateValue (vatRate : String) : ℚ :=
  jsOrNum (vatRates vatRate) 20

/-- InvoiceService.calculateInvoiceTotals: per-item discount, VAT and
totals, then the three document sums (Array.prototype.reduce with
initial value 0 is a left fold). -/
def calculateInvoiceTotals (itemsData : List RawItem) :
    List CalcItem × CalcTotals :=
  let items := itemsData.map (fun item =>
    let lineTotal := item.quantity * item.unit_price_excluding_tax
    let discountAmount :=
      if truthyNum item.discount_percentage then
        lineTotal * item.discount_percentage.getD 0 / 100
      else
        jsOrNum item.discount_amount 0
    let totalExcludingTax := lineTotal - discountAmount
    let vatRate := getVatRateValue item.vat_rate
    let vatAmount := totalExcludingTax * vatRate / 100
    let totalIncludingTax := totalExcludingTax + vatAmount
    ({ item := item
       total_excluding_tax := totalExcludingTax
       total_including_tax := totalIncludingTax } : CalcItem))
  let totalExcludingTax :=
    items.foldl (fun sum item => sum + item.total_excluding_tax) 0
  let totalTax :=
    items.foldl
      (fun sum item =>
        sum + (item.total_including_tax - item.total_excluding_tax)) 0
  let totalIncludingTax :=
    items.foldl (fun sum item => sum + item.total_including_tax) 0
  (items,
    { totalExcludingTax := totalExcludingTax
      totalTax := totalTax
      totalIncludingTax := totalIncludingTax })

end InvoiceService

namespace QuoteService

/-- The fixed rates table literal inside QuoteService.getVatRateValue. -/
def vatRates (vatRate : String) : Option ℚ :=
  if vatRate = "ZERO" then some 0
  else if vatRate = "REDUCED_1" then some (21 / 10)
  else if vatRate = "REDUCED_2" then some (55 / 10)
  else if vatRate = "REDUCED_3" then some 10
  else if vatRate = "STANDARD" then some 20
  else if vatRate = "EXPORT" then some 0
  else none

/-- QuoteService.getVatRateValue: rates[vatRate] || 20.0. -/
def getVatRateValue (vatRate : String) : ℚ :=
  jsOrNum (vatRates vatRate) 20

/-- QuoteService.calculateQuoteTotals, line for line the same algorithm
as the invoice service's calculator. -/
def calculateQuoteTotals (itemsData : List RawItem) :
    List CalcItem × CalcTotals :=
  let items := itemsData.map (fun item =>
    let lineTotal := item.quantity * item.unit_price_excluding_tax
    let discountAmount :=
      if truthyNum item.discount_percentage then
        lineTotal * item.discount_percentage.getD 0 / 100
      else
        jsOrNum item.discount_amount 0
    let totalExcludingTax := lineTotal - discountAmount
    let vatRate := getVatRateValue item.vat_rate
    let vatAmount := totalExcludingTax * vatRate / 100
    let totalIncludingTax := totalExcludingTax + vatAmount
    ({ item := item
       total_excluding_tax := totalExcludingTax
       total_including_tax := totalIncludingTax } : CalcItem))
  let totalExcludingTax :=
    items.foldl (fun sum item => sum + item.total_excluding_tax) 0
  let totalTax :=
    items.foldl
      (fun sum item =>
        sum + (item.total_including_tax - item.total_excluding_tax)) 0
  let totalIncludingTax :=
    items.foldl (fun sum item => sum + item.total_including_tax) 0
  (items,
    { totalExcludingTax := totalExcludingTax
      totalTax := totalTax
      totalIncludingTax := totalIncludingTax })

end QuoteService

/-- C1: the claim says getVatRateValue returns the table value for each of
the six codes, in particular 0 for ZERO and EXPORT, and 20.0 otherwise.
The code's own table maps ZERO and EXPORT to 0, but the lookup
rates[vatRate] || 20.0 treats the value 0 as falsy, so the code actually
returns 20 for ZERO and for EXPORT, contradicting its own table. -/
theorem C1_vat_zero_export_divergence :
    InvoiceService.getVatRateValue "ZERO" = 20 ∧
    InvoiceService.vatRates "ZERO" = some 0 ∧
    InvoiceService.getVatRateValue "EXPORT" = 20 ∧
    InvoiceService.vatRates "EXPORT" = some 0 ∧
    InvoiceService.getVatRateValue "UNKNOWN" = 20 ∧
    InvoiceService.getVatRateValue "REDUCED_1" = 21 / 10 ∧
    InvoiceService.getVatRateValue "REDUCED_2" = 55 / 10 ∧
    InvoiceService.getVatRateValue "REDUCED_3" = 10 ∧
    InvoiceService.getVatRateValue "STANDARD" = 20 := by
  refine ⟨rfl, rfl, rfl, rfl, rfl, ?_, ?_, rfl, rfl⟩ <;>
    simp [InvoiceService.getVatRateValue, InvoiceService.vatRates, jsOrNum]

/-- C10: the invoice service's totals calculation and the quote service's
totals calculation are the same function, and their getVatRateValue
helpers agree on every VAT code. -/
theorem C10_calculators_identical :
    (∀ items : List RawItem,
      InvoiceService.calculateInvoiceTotals items =
        QuoteService.calculateQuoteTotals items) ∧
    (∀ code : String,
      InvoiceService.getVatRateValue code = QuoteService.getVatRateValue code) :=
  ⟨fun _ => rfl, fun _ => rfl⟩

/-- jsOrNum with default 0 is just getD 0. -/
theorem jsOrNum_zero (o : Option ℚ) : jsOrNum o 0 = o.getD 0 := by
  cases o with
  | none => rfl
  | some v =>
    by_cases h : v = 0 <;> simp [jsOrNum, h]

/-- C8 counterexample: an item with discount_percentage set to 0 and
discount_amount set to 50 on a line total of 100. The claim says the
percentage takes precedence whenever it is set, so the discount would be
0 and the item total 100; the code's truthiness test skips a zero
percentage and subtracts the 50, giving 50. -/
theorem C8_counterexample_zero_percentage :
    ((InvoiceService.calculateInvoiceTotals
        [{ product_id := none, name := "ligne", description := none,
           quantity := 1, unit := none, unit_price_excluding_tax := 100,
           discount_percentage := some 0, discount_amount := some 50,
           vat_rate := "ZERO", sort_order := none }]).1.map
      CalcItem.total_excluding_tax) = [50] ∧ (50 : ℚ) ≠ 100 := by
  constructor
  · simp [InvoiceService.calculateInvoiceTotals, truthyNum, jsOrNum]
    norm_num
  · norm_num

/-- C8 amended: in both calculators the percentage discount applies only
when discount_percentage is set AND non-zero; when it is absent or zero
the explicit discount_amount (defaulting to 0) is subtracted; the two
discounts are never summed. -/
theorem C8_discount_precedence_amended :
    ∀ items : List RawItem,
      ((InvoiceService.calculateInvoiceTotals items).1.map
          CalcItem.total_excluding_tax =
        items.map (fun item =>
          item.quantity * item.unit_price_excluding_tax -
            (match item.discount_percentage with
             | some pct =>
               if pct ≠ 0 then
                 item.quantity * item.unit_price_excluding_tax * pct / 100
               else item.discount_amount.getD 0
             | none => item.discount_amount.getD 0))) ∧
      ((QuoteService.calculateQuoteTotals items).1.map
          CalcItem.total_excluding_tax =
        items.map (fun item =>
          item.quantity * item.unit_price_excluding_tax -
            (match item.discount_percentage with
             | some pct =>
               if pct ≠ 0 then
                 item.quantity * item.unit_price_excluding_tax * pct / 100
               else item.discount_amount.getD 0
             | none => item.discount_amount.getD 0))) := by
  refine fun items => ⟨?_, ?_⟩ <;>
  · simp only [InvoiceService.calculateInvoiceTotals,
      QuoteService.calculateQuoteTotals, List.map_map]
    refine List.map_congr_left (fun item _ => ?_)
    cases hd : item.discount_percentage with
    | none => simp [truthyNum, jsOrNum_zero, hd, Function.comp]
    | some pct =>
      by_cases hz : pct = 0 <;>
        simp [truthyNum, jsOrNum_zero, hd, hz, Function.comp]

/-- Decimal rendering of a natural number, digit list built most
significant digit first, with an explicit fuel argument (model of
Number.prototype.toString applied to the non-negative integer counters). -/
def natToStringAux : Nat → Nat → List Char
  | 0, _ => []
  | fuel + 1, n =>
    if n < 10 then [Nat.digitChar n]
    else natToStringAux fuel (n / 10) ++ [Nat.digitChar (n % 10)]

/-- Model of nextNumber.toString() for the natural-number counters. -/
def natToString (n : Nat) : String :=
  ⟨natToStringAux (n + 1) n⟩

/-- Model of s.padStart(4, "0"): left-pad with zeros up to length 4. -/
def padStart4 (s : String) : String :=
  ⟨List.replicate (4 - s.length) '0' ++ s.data⟩

/-- The per-company settings row used by the sequence generator
(invoicePref and quotePref stand for the invoice and quote number
string prefixes of ICompanySettings; default_payment_terms is the
companywide default payment terms in days). -/
structure CompanySettings where
  invoicePref : String
  next_invoice_number : Nat
  quotePref : String
  next_quote_number : Nat
  default_payment_terms : Int
deriving DecidableEq, Repr

/-- CompanyService.getNextInvoiceNumber: reads the counter, persists
counter + 1, and returns the prefixed zero-padded number. The returned
string and the updated settings row are given as a pair. -/
def getNextInvoiceNumber (s : CompanySettings) : String × CompanySettings :=
  (s.invoicePref ++ "-" ++ padStart4 (natToString s.next_invoice_number),
    { s with next_invoice_number := s.next_invoice_number + 1 })

/-- CompanyService.getNextQuoteNumber, same scheme on the quote counter. -/
def getNextQuoteNumber (s : CompanySettings) : String × CompanySettings :=
  (s.quotePref ++ "-" ++ padStart4 (natToString s.next_quote_number),
    { s with next_quote_number := s.next_quote_number + 1 })

/-- Settings row after k sequential invoice-number calls. -/
def iterateInvoiceCalls (s : CompanySettings) : Nat → CompanySettings
  | 0 => s
  | k + 1 => (getNextInvoiceNumber (iterateInvoiceCalls s k)).2

/-- The number returned by the (k+1)-th sequential invoice-number call. -/
def nthInvoiceNumber (s : CompanySettings) (k : Nat) : String :=
  (getNextInvoiceNumber (iterateInvoiceCalls s k)).1

/-- Settings row after k sequential quote-number calls. -/
def iterateQuoteCalls (s : CompanySettings) : Nat → CompanySettings
  | 0 => s
  | k + 1 => (getNextQuoteNumber (iterateQuoteCalls s k)).2

/-- The number returned by the (k+1)-th sequential quote-number call. -/
def nthQuoteNumber (s : CompanySettings) (k : Nat) : String :=
  (getNextQuoteNumber (iterateQuoteCalls s k)).1

/-- Decimal decoding of a character list, used to invert the rendering. -/
def strVal (l : List Char) : Nat :=
  l.foldl (fun a c => 10 * a + (c.toNat - 48)) 0

theorem digitChar_val {d : Nat} (h : d < 10) :
    (Nat.digitChar d).toNat - 48 = d := by
  interval_cases d <;> rfl

theorem foldl_val_replicate_zero (k : Nat) :
    List.foldl (fun a c => 10 * a + (c.toNat - 48)) 0
      (List.replicate k '0') = 0 := by
  induction k with
  | zero => rfl
  | succ k ih => simpa [List.replicate_succ] using ih

theorem strVal_natToStringAux :
    ∀ fuel n, n < fuel →
      strVal (natToStringAux fuel n) = n := by
  intro fuel
  induction fuel with
  | zero => intro n h; omega
  | succ fuel ih =>
    intro n h
    by_cases h10 : n < 10
    · simp [natToStringAux, h10, strVal, digitChar_val h10]
    · have hdiv : n / 10 < fuel := by
        have h1 : n / 10 < n := Nat.div_lt_self (by omega) (by omega)
        omega
      have hmod : n % 10 < 10 := Nat.mod_lt _ (by omega)
      simp only [natToStringAux, h10, if_false, strVal, List.foldl_append]
      have := ih (n / 10) hdiv
      simp only [strVal] at this
      simp [this, digitChar_val hmod]
      omega

theorem strVal_natToString (n : Nat) : strVal (natToString n).data = n :=
  strVal_natToStringAux (n + 1) n (Nat.lt_succ_self n)

theorem strVal_padStart4 (s : String) :
    strVal (padStart4 s).data = strVal s.data := by
  simp only [padStart4, strVal, List.foldl_append]
  rw [foldl_val_replicate_zero]

theorem padded_number_injective {a b : Nat}
    (h : padStart4 (natToString a) = padStart4 (natToString b)) : a = b := by
  have ha := strVal_padStart4 (natToString a)
  have hb := strVal_padStart4 (natToString b)
  rw [strVal_natToString] at ha
  rw [strVal_natToString] at hb
  rw [h] at ha
  omega

theorem prefixed_cancel {p x y : String}
    (h : p ++ "-" ++ x = p ++ "-" ++ y) : x = y := by
  have hd := congrArg String.data h
  simp only [String.data_append] at hd
  exact String.ext (List.append_cancel_left hd)

theorem padStart4_length (s : String) :
    (padStart4 s).length = max 4 s.length := by
  simp only [padStart4, String.length_mk, List.length_append,
    List.length_replicate]
  have : s.length = s.data.length := rfl
  omega

theorem iterateInvoiceCalls_counter (s : CompanySettings) :
    ∀ k, (iterateInvoiceCalls s k).next_invoice_number =
      s.next_invoice_number + k := by
  intro k
  induction k with
  | zero => rfl
  | succ k ih => simp [iterateInvoiceCalls, getNextInvoiceNumber, ih]; omega

theorem iterateQuoteCalls_counter (s : CompanySettings) :
    ∀ k, (iterateQuoteCalls s k).next_quote_number =
      s.next_quote_number + k := by
  intro k
  induction k with
  | zero => rfl
  | succ k ih => simp [iterateQuoteCalls, getNextQuoteNumber, ih]; omega

theorem iterateInvoiceCalls_pref (s : CompanySettings) :
    ∀ k, (iterateInvoiceCalls s k).invoicePref = s.invoicePref := by
  intro k
  induction k with
  | zero => rfl
  | succ k ih => simp [iterateInvoiceCalls, getNextInvoiceNumber, ih]

theorem iterateQuoteCalls_pref (s : CompanySettings) :
    ∀ k, (iterateQuoteCalls s k).quotePref = s.quotePref := by
  intro k
  induction k with
  | zero => rfl
  | succ k ih => simp [iterateQuoteCalls, getNextQuoteNumber, ih]

theorem nthInvoiceNumber_eq (s : CompanySettings) (k : Nat) :
    nthInvoiceNumber s k =
      s.invoicePref ++ "-" ++
        padStart4 (natToString (s.next_invoice_number + k)) := by
  simp [nthInvoiceNumber, getNextInvoiceNumber,
    iterateInvoiceCalls_counter, iterateInvoiceCalls_pref]

theorem nthQuoteNumber_eq (s : CompanySettings) (k : Nat) :
    nthQuoteNumber s k =
      s.quotePref ++ "-" ++
        padStart4 (natToString (s.next_quote_number + k)) := by
  simp [nthQuoteNumber, getNextQuoteNumber,
    iterateQuoteCalls_counter, iterateQuoteCalls_pref]

/-- C7: each sequence-generator call returns prefix ++ "-" ++ the counter
zero-padded to at least 4 digits (wider counters simply widen the string)
and persists counter + 1, so sequential calls yield strictly increasing
counters and never-reused numbers, for both the invoice and the quote
generator. -/
theorem C7_sequence_generator (s : CompanySettings) :
    (getNextInvoiceNumber s).1 =
      s.invoicePref ++ "-" ++ padStart4 (natToString s.next_invoice_number) ∧
    (getNextInvoiceNumber s).2.next_invoice_number =
      s.next_invoice_number + 1 ∧
    (getNextQuoteNumber s).1 =
      s.quotePref ++ "-" ++ padStart4 (natToString s.next_quote_number) ∧
    (getNextQuoteNumber s).2.next_quote_number = s.next_quote_number + 1 ∧
    (padStart4 (natToString s.next_invoice_number)).length =
      max 4 (natToString s.next_invoice_number).length ∧
    (∀ k, (iterateInvoiceCalls s k).next_invoice_number =
      s.next_invoice_number + k) ∧
    (∀ i j, i ≠ j → nthInvoiceNumber s i ≠ nthInvoiceNumber s j) ∧
    (∀ k, (iterateQuoteCalls s k).next_quote_number =
      s.next_quote_number + k) ∧
    (∀ i j, i ≠ j → nthQuoteNumber s i ≠ nthQuoteNumber s j) := by
  refine ⟨rfl, rfl, rfl, rfl, padStart4_length _,
    iterateInvoiceCalls_counter s, ?_, iterateQuoteCalls_counter s, ?_⟩
  · intro i j hij heq
    rw [nthInvoiceNumber_eq, nthInvoiceNumber_eq] at heq
    have := padded_number_injective (prefixed_cancel heq)
    omega
  · intro i j hij heq
    rw [nthQuoteNumber_eq, nthQuoteNumber_eq] at heq
    have := padded_number_injective (prefixed_cancel heq)
    omega

/-- C7 witness: the generator applied to a concrete settings row; the
first and second sequential calls return different numbers. -/
theorem C7_sequence_generator_witness :
    (0 : Nat) ≠ 1 ∧
    nthInvoiceNumber
        { invoicePref := "INV", next_invoice_number := 1, quotePref := "QUO",
          next_quote_number := 7, default_payment_terms := 30 } 0 ≠
      nthInvoiceNumber
        { invoicePref := "INV", next_invoice_number := 1, quotePref := "QUO",
          next_quote_number := 7, default_payment_terms := 30 } 1 :=
  ⟨by decide,
    (C7_sequence_generator
        { invoicePref := "INV", next_invoice_number := 1, quotePref := "QUO",
          next_quote_number := 7,
          default_payment_terms := 30 }).2.2.2.2.2.2.1 0 1 (by decide)⟩

/-- Invoice lifecycle states (the status column of the invoice table). -/
inductive InvStatus where
  | draft
  | pending
  | sent
  | paid
  | partially_paid
  | overdue
  | cancelled
  | refunded
deriving DecidableEq, Repr

/-- Quote lifecycle states (the status column of the quote table). -/
inductive QStatus where
  | draft
  | pending
  | sent
  | viewed
  | accepted
  | rejected
  | expired
  | cancelled
  | converted
deriving DecidableEq, Repr

/-- The domain errors thrown by the two services; the payloads (current
status and attempted action strings) are omitted, only the error kind is
kept. -/
inductive DomainError where
  | invoiceStatusError
  | quoteStatusError
  | invoiceError
  | quoteError
deriving DecidableEq, Repr

/-- Whether an Except result is a success. -/
def resultOk {ε α : Type} (r : Except ε α) : Bool :=
  match r with
  | Except.ok _ => true
  | Except.error _ => false

/-- The invoice row (the columns of IInvoice that the modelled
operations read or write; uuid identities are modelled as naturals). -/
structure Invoice where
  invoice_id : Nat
  customer_id : String
  user_id : String
  company_id : String
  invoice_number : String
  invoice_date : Int
  due_date : Int
  amount_excluding_tax : ℚ
  tax : ℚ
  amount_including_tax : ℚ
  discount_amount : ℚ
  discount_percentage : Option ℚ
  shipping_cost : ℚ
  currency : String
  exchange_rate : Option ℚ
  conditions : Option String
  notes : Option String
  language : String
  template_id : Option String
  status : InvStatus
deriving DecidableEq, Repr

/-- One persisted invoiceItem row: the raw fields plus the derived
totals and the resolved sort order, under a row identity. -/
structure StoredItem where
  item_id : Nat
  invoice_id : Nat
  item : RawItem
  total_excluding_tax : ℚ
  total_including_tax : ℚ
  sort_order : Nat
deriving DecidableEq, Repr

/-- The update patch (IUpdateInvoiceRequest). The guard in updateInvoice
also reads data.amount_excluding_tax, a property outside the declared
interface; it is modelled here because the guard tests it at runtime. -/
structure UpdatePatch where
  customer_id : Option String
  due_date : Option Int
  discount_amount : Option ℚ
  discount_percentage : Option ℚ
  shipping_cost : Option ℚ
  status : Option InvStatus
  notes : Option String
  items : Option (List RawItem)
  amount_excluding_tax : Option ℚ
deriving DecidableEq, Repr

/-- The field-level update of the invoice row performed by
tx.invoice.update: a field given as undefined in the patch is left
unchanged (Prisma semantics), the monetary columns come from the
recomputed totals when items were supplied. -/
def patchedInvoice (inv : Invoice) (data : UpdatePatch)
    (totals : Option CalcTotals) : Invoice :=
  { inv with
    customer_id := data.customer_id.getD inv.customer_id
    due_date := data.due_date.getD inv.due_date
    amount_excluding_tax :=
      (totals.map CalcTotals.totalExcludingTax).getD inv.amount_excluding_tax
    tax := (totals.map CalcTotals.totalTax).getD inv.tax
    amount_including_tax :=
      (totals.map CalcTotals.totalIncludingTax).getD inv.amount_including_tax
    discount_amount := data.discount_amount.getD inv.discount_amount
    discount_percentage :=
      match data.discount_percentage with
      | some v => some v
      | none => inv.discount_percentage
    shipping_cost := data.shipping_cost.getD inv.shipping_cost
    status := data.status.getD inv.status
    notes :=
      match data.notes with
      | some v => some v
      | none => inv.notes }

/-- Model of items.map((item, index) => ...) as used by
tx.invoiceItem.createMany: each calculated item becomes a row carrying a
fresh identity nextId + index and the resolved sort order
item.sort_order || index. -/
def createManyRows (invoiceId : Nat) (nextId : Nat) :
    Nat → List CalcItem → List StoredItem
  | _, [] => []
  | i, c :: rest =>
    { item_id := nextId + i
      invoice_id := invoiceId
      item := c.item
      total_excluding_tax := c.total_excluding_tax
      total_including_tax := c.total_including_tax
      sort_order := jsOrNat c.item.sort_order i } ::
      createManyRows invoiceId nextId (i + 1) rest

/-- InvoiceService.updateInvoice: rejects on status paid when the patch
carries items or a truthy amount_excluding_tax, rejects on status
cancelled, otherwise updates the row and, when items are supplied,
deletes every existing item row and inserts the recomputed set in one
transaction (new rows receive fresh identities from nextItemId on). -/
def updateInvoice (existingInvoice : Invoice)
    (existingItems : List StoredItem) (data : UpdatePatch)
    (nextItemId : Nat) : Except DomainError (Invoice × List StoredItem) :=
  if existingInvoice.status = InvStatus.paid ∧
      (data.items.isSome ∨ truthyNum data.amount_excluding_tax) then
    Except.error DomainError.invoiceStatusError
  else if existingInvoice.status = InvStatus.cancelled then
    Except.error DomainError.invoiceStatusError
  else
    let calculated := data.items.map InvoiceService.calculateInvoiceTotals
    let updatedInvoice := patchedInvoice existingInvoice data (calculated.map Prod.snd)
    let newItems :=
      match calculated with
      | some c => createManyRows existingInvoice.invoice_id nextItemId 0 c.1
      | none => existingItems
    Except.ok (updatedInvoice, newItems)

theorem createManyRows_map_item (invId nid : Nat) :
    ∀ (l : List CalcItem) (i : Nat),
      (createManyRows invId nid i l).map StoredItem.item =
        l.map CalcItem.item := by
  intro l
  induction l with
  | nil => intro i; rfl
  | cons c rest ih =>
    intro i
    simp [createManyRows, ih (i + 1)]

theorem createManyRows_map_id (invId nid : Nat) :
    ∀ (l : List CalcItem) (i : Nat),
      (createManyRows invId nid i l).map StoredItem.item_id =
        List.range' (nid + i) l.length := by
  intro l
  induction l with
  | nil => intro i; rfl
  | cons c rest ih =>
    intro i
    simp only [createManyRows, List.map_cons, List.length_cons,
      List.range'_succ, ih (i + 1)]
    rw [Nat.add_assoc]

theorem createManyRows_id_ge (invId nid : Nat) :
    ∀ (l : List CalcItem) (i : Nat) (r : StoredItem),
      r ∈ createManyRows invId nid i l → nid ≤ r.item_id := by
  intro l
  induction l with
  | nil => intro i r h; simp [createManyRows] at h
  | cons c rest ih =>
    intro i r h
    simp only [createManyRows, List.mem_cons] at h
    rcases h with h | h
    · subst h; simp
    · exact ih (i + 1) r h

theorem calcItems_map_item (its : List RawItem) :
    (InvoiceService.calculateInvoiceTotals its).1.map CalcItem.item = its := by
  simp only [InvoiceService.calculateInvoiceTotals, List.map_map]
  exact List.map_id its

/-- C4 counterexample: a paid invoice patched with amount_excluding_tax
set to the value 0. The claim says a patch touching a monetary field on a
paid invoice raises InvoiceStatusError; the guard tests
data.items || data.amount_excluding_tax, the value 0 is falsy, so the
update goes through without any error. -/
theorem C4_counterexample_zero_amount :
    resultOk (updateInvoice
      { invoice_id := 1, customer_id := "c", user_id := "u",
        company_id := "co", invoice_number := "INV-0001",
        invoice_date := 0, due_date := 0, amount_excluding_tax := 100,
        tax := 20, amount_including_tax := 120, discount_amount := 0,
        discount_percentage := none, shipping_cost := 0, currency := "EUR",
        exchange_rate := none, conditions := none, notes := none,
        language := "fr", template_id := none, status := InvStatus.paid }
      []
      { customer_id := none, due_date := none, discount_amount := none,
        discount_percentage := none, shipping_cost := none, status := none,
        notes := none, items := none, amount_excluding_tax := some 0 }
      10) = true := by
  simp [updateInvoice, truthyNum, resultOk]

/-- C4 amended: Update raises InvoiceStatusError when the status is
cancelled (any patch), and when the status is paid and the patch carries
an items list or a non-zero amount_excluding_tax value (a zero value
slips through the truthiness guard, and the other monetary columns are
not tested); on a draft invoice with an items list the update succeeds,
the stored item set is exactly the new set under fresh row identities
(no old identity survives) and the document totals are recomputed from
the new items. -/
theorem C4_update_guards_amended (inv : Invoice)
    (existing : List StoredItem) (data : UpdatePatch) (nextItemId : Nat) :
    (inv.status = InvStatus.cancelled →
      updateInvoice inv existing data nextItemId =
        Except.error DomainError.invoiceStatusError) ∧
    (inv.status = InvStatus.paid →
      (data.items.isSome = true ∨ truthyNum data.amount_excluding_tax = true) →
      updateInvoice inv existing data nextItemId =
        Except.error DomainError.invoiceStatusError) ∧
    (inv.status = InvStatus.draft →
      ∀ its, data.items = some its →
        ∀ out, updateInvoice inv existing data nextItemId = Except.ok out →
          out.2.map StoredItem.item = its ∧
          out.2.map StoredItem.item_id = List.range' nextItemId its.length ∧
          (∀ old ∈ existing, old.item_id < nextItemId →
            ∀ r ∈ out.2, old.item_id ≠ r.item_id) ∧
          out.1.amount_excluding_tax =
            (InvoiceService.calculateInvoiceTotals its).2.totalExcludingTax ∧
          out.1.tax = (InvoiceService.calculateInvoiceTotals its).2.totalTax ∧
          out.1.amount_including_tax =
            (InvoiceService.calculateInvoiceTotals its).2.totalIncludingTax) ∧
    (inv.status = InvStatus.draft →
      resultOk (updateInvoice inv existing data nextItemId) = true) := by
  refine ⟨?_, ?_, ?_, ?_⟩
  · intro hst
    simp [updateInvoice, hst]
  · intro hst hmon
    rcases hmon with h | h <;> simp [updateInvoice, hst, h]
  · intro hst its hits out hout
    simp only [updateInvoice, hst, hits] at hout
    simp only [Option.isSome_some, true_or, and_true, if_false,
      reduceCtorEq] at hout
    have hok := hout
    simp at hok
    refine ?_
    cases hok
    constructor
    · simpa [createManyRows_map_item] using
        calcItems_map_item its
    constructor
    · have hlen : (InvoiceService.calculateInvoiceTotals its).1.length =
          its.length := by
        simp [InvoiceService.calculateInvoiceTotals]
      have h2 := createManyRows_map_id inv.invoice_id nextItemId
        (InvoiceService.calculateInvoiceTotals its).1 0
      rw [hlen] at h2
      simpa using h2
    constructor
    · intro old hold hlt r hr
      have := createManyRows_id_ge inv.invoice_id nextItemId
        (InvoiceService.calculateInvoiceTotals its).1 0 r hr
      omega
    constructor
    · simp [patchedInvoice]
    constructor
    · simp [patchedInvoice]
    · simp [patchedInvoice]
  · intro hst
    simp [updateInvoice, hst, resultOk]

/-- C4 witness: the guards applied to concrete invoices; a cancelled
invoice rejects any patch, a draft invoice accepts an items patch. -/
theorem C4_update_guards_amended_witness :
    updateInvoice
      { invoice_id := 2, customer_id := "c", user_id := "u",
        company_id := "co", invoice_number := "INV-0002",
        invoice_date := 0, due_date := 0, amount_excluding_tax := 0,
        tax := 0, amount_including_tax := 0, discount_amount := 0,
        discount_percentage := none, shipping_cost := 0, currency := "EUR",
        exchange_rate := none, conditions := none, notes := none,
        language := "fr", template_id := none,
        status := InvStatus.cancelled }
      []
      { customer_id := none, due_date := none, discount_amount := none,
        discount_percentage := none, shipping_cost := none, status := none,
        notes := none, items := none, amount_excluding_tax := none }
      0 = Except.error DomainError.invoiceStatusError ∧
    resultOk (updateInvoice
      { invoice_id := 3, customer_id := "c", user_id := "u",
        company_id := "co", invoice_number := "INV-0003",
        invoice_date := 0, due_date := 0, amount_excluding_tax := 0,
        tax := 0, amount_including_tax := 0, discount_amount := 0,
        discount_percentage := none, shipping_cost := 0, currency := "EUR",
        exchange_rate := none, conditions := none, notes := none,
        language := "fr", template_id := none, status := InvStatus.draft }
      []
      { customer_id := none, due_date := none, discount_amount := none,
        discount_percentage := none, shipping_cost := none, status := none,
        notes := none,
        items := some
          [{ product_id := none, name := "p", description := none,
             quantity := 2, unit := none, unit_price_excluding_tax := 10,
             discount_percentage := none, discount_amount := none,
             vat_rate := "STANDARD", sort_order := none }],
        amount_excluding_tax := none }
      5) = true :=
  ⟨(C4_update_guards_amended _ _ _ _).1 rfl,
    (C4_update_guards_amended _ _ _ _).2.2.2 rfl⟩

/-- One persisted quoteItem row (IQuoteItem): numeric values are
Prisma Decimal columns read back through toNumber() in the conversion. -/
structure QuoteItem where
  product_id : Option String
  name : Option String
  description : Option String
  quantity : ℚ
  unit : Option String
  unit_price_excluding_tax : ℚ
  discount_percentage : Option ℚ
  discount_amount : Option ℚ
  vat_rate : String
  sort_order : Nat
deriving DecidableEq, Repr

/-- The quote row (the columns of IQuote read or written by the modelled
operations), with its items included. -/
structure Quote where
  quote_id : String
  customer_id : String
  user_id : String
  company_id : String
  validity_date : Int
  status : QStatus
  accepted_at : Option Int
  converted_to_invoice : Bool
  invoice_id : Option Nat
  discount_amount : Option ℚ
  discount_percentage : Option ℚ
  shipping_cost : Option ℚ
  currency : String
  exchange_rate : Option ℚ
  conditions : Option String
  notes : Option String
  language : String
  template_id : Option String
  items : List QuoteItem
deriving DecidableEq, Repr

/-- QuoteService.markAsAccepted: rejects a quote already accepted, then
rejects a quote whose validity_date lies strictly before now, otherwise
sets status accepted and accepted_at to now. -/
def markAsAccepted (quote : Quote) (now : Int) : Except DomainError Quote :=
  if quote.status = QStatus.accepted then
    Except.error DomainError.quoteStatusError
  else if quote.validity_date < now then
    Except.error DomainError.quoteStatusError
  else
    Except.ok { quote with status := QStatus.accepted, accepted_at := some now }

/-- C6: markAsAccepted fails on every quote whose validity_date is
earlier than now regardless of its status, fails when the status is
already accepted, and otherwise sets status accepted and accepted_at to
now. -/
theorem C6_mark_as_accepted (q : Quote) (now : Int) :
    (q.validity_date < now → resultOk (markAsAccepted q now) = false) ∧
    (q.status = QStatus.accepted →
      resultOk (markAsAccepted q now) = false) ∧
    (q.status ≠ QStatus.accepted → ¬ q.validity_date < now →
      markAsAccepted q now =
        Except.ok
          { q with status := QStatus.accepted, accepted_at := some now }) := by
  refine ⟨?_, ?_, ?_⟩
  · intro hv
    by_cases hs : q.status = QStatus.accepted <;>
      simp [markAsAccepted, hs, hv, resultOk]
  · intro hs
    simp [markAsAccepted, hs, resultOk]
  · intro hs hv
    simp [markAsAccepted, hs, hv]

/-- C6 witness: an expired pending quote is rejected. -/
theorem C6_mark_as_accepted_witness :
    ((-1 : Int) < 0) ∧
    resultOk (markAsAccepted
      { quote_id := "q1", customer_id := "c", user_id := "u",
        company_id := "co", validity_date := -1, status := QStatus.pending,
        accepted_at := none, converted_to_invoice := false,
        invoice_id := none, discount_amount := none,
        discount_percentage := none, shipping_cost := none,
        currency := "EUR", exchange_rate := none, conditions := none,
        notes := none, language := "fr", template_id := none, items := [] }
      0) = false :=
  ⟨by decide, (C6_mark_as_accepted _ 0).1 (by decide)⟩

/-- The invoice-creation request (ICreateInvoiceRequest) as built by the
conversion and consumed by InvoiceService.createInvoice. -/
structure CreateInvoiceReq where
  customer_id : String
  invoice_date : Int
  due_date : Int
  discount_amount : Option ℚ
  discount_percentage : Option ℚ
  shipping_cost : Option ℚ
  currency : Option String
  exchange_rate : Option ℚ
  conditions : Option String
  notes : Option String
  language : Option String
  template_id : Option String
  items : List RawItem
deriving DecidableEq, Repr

/-- The conversion request (IQuoteConversion without the two id fields,
which the service takes separately). -/
structure ConversionData where
  invoice_date : Option Int
  due_date : Option Int
  payment_terms : Option Int
  notes : Option String
  keep_original_items : Bool
  apply_current_prices : Bool
deriving DecidableEq, Repr

/-- The database slice touched by the conversion: the quote under
conversion, the invoice and invoiceItem tables, and the owning company's
settings row. nextInvoiceId and nextItemId model the fresh uuid supply. -/
structure DBState where
  quote : Quote
  invoices : List Invoice
  invoiceItems : List StoredItem
  settings : CompanySettings
  nextInvoiceId : Nat
  nextItemId : Nat
deriving DecidableEq, Repr

/-- Failure injection for the two fallible database steps of the
conversion: the invoice-service transaction (invoice + items creation)
and the quote-status update. -/
structure FailureSpec where
  createInvoiceTxFails : Bool
  quoteUpdateFails : Bool
deriving DecidableEq, Repr

/-- InvoiceService.createInvoice as invoked by the conversion. It first
draws the invoice number (a separate, immediately persisted counter
update via companyService), computes totals, then creates the invoice
row and its item rows inside a transaction of its own on the global
prisma client: if that transaction fails it is rolled back as a unit
(only the counter increment survives) and an InvoiceError is thrown.
The database default for the status column is draft. -/
def createInvoice (db : DBState) (data : CreateInvoiceReq)
    (userId : String) (companyId : String) (f : FailureSpec) :
    Except DomainError Invoice × DBState :=
  let drawn := getNextInvoiceNumber db.settings
  let db1 := { db with settings := drawn.2 }
  let calculated := InvoiceService.calculateInvoiceTotals data.items
  if f.createInvoiceTxFails then
    (Except.error DomainError.invoiceError, db1)
  else
    let newId := db1.nextInvoiceId
    let newInvoice : Invoice :=
      { invoice_id := newId
        customer_id := data.customer_id
        user_id := userId
        company_id := companyId
        invoice_number := drawn.1
        invoice_date := data.invoice_date
        due_date := data.due_date
        amount_excluding_tax := calculated.2.totalExcludingTax
        tax := calculated.2.totalTax
        amount_including_tax := calculated.2.totalIncludingTax
        discount_amount := jsOrNum data.discount_amount 0
        discount_percentage := data.discount_percentage
        shipping_cost := jsOrNum data.shipping_cost 0
        currency := jsOrStr data.currency "EUR"
        exchange_rate := data.exchange_rate
        conditions := data.conditions
        notes := data.notes
        language := jsOrStr data.language "fr"
        template_id := data.template_id
        status := InvStatus.draft }
    let newRows := createManyRows newId db1.nextItemId 0 calculated.1
    (Except.ok newInvoice,
      { db1 with
        invoices := db1.invoices ++ [newInvoice]
        invoiceItems := db1.invoiceItems ++ newRows
        nextInvoiceId := newId + 1
        nextItemId := db1.nextItemId + newRows.length })

/-- QuoteService.convertToInvoice. After the status and exactly-once
guards, the outer transaction builds the invoice request from the quote,
calls invoiceService.createInvoice (which runs on the global prisma
client, in its own transaction, not in the outer tx), and finally
updates the quote row inside the outer transaction. An error from either
step aborts the outer transaction, which can only roll back its own
single write (the quote update): an invoice already committed by the
invoice service persists. The error is rethrown as a QuoteError. -/
def convertToInvoice (db : DBState) (conversionData : ConversionData)
    (now : Int) (f : FailureSpec) :
    Except DomainError (Quote × Invoice) × DBState :=
  let quote := db.quote
  if quote.status ≠ QStatus.accepted then
    (Except.error DomainError.quoteStatusError, db)
  else if quote.converted_to_invoice then
    (Except.error DomainError.quoteStatusError, db)
  else
    let invoiceData : CreateInvoiceReq :=
      { customer_id := quote.customer_id
        invoice_date := conversionData.invoice_date.getD now
        due_date := conversionData.due_date.getD
          (now + jsOrInt conversionData.payment_terms 30 * 86400000)
        discount_amount := quote.discount_amount
        discount_percentage := quote.discount_percentage
        shipping_cost := quote.shipping_cost
        currency := some quote.currency
        exchange_rate := quote.exchange_rate
        conditions := quote.conditions
        notes := jsOrOptStr conversionData.notes quote.notes
        language := some quote.language
        template_id := quote.template_id
        items := quote.items.map (fun item =>
          ({ product_id := item.product_id
             name := jsOrStr item.name ""
             description := item.description
             quantity := item.quantity
             unit := item.unit
             unit_price_excluding_tax :=
               if conversionData.apply_current_prices then
                 item.unit_price_excluding_tax
               else
                 item.unit_price_excluding_tax
             discount_percentage := item.discount_percentage
             discount_amount := item.discount_amount
             vat_rate := item.vat_rate
             sort_order := some item.sort_order } : RawItem)) }
    match createInvoice db invoiceData quote.user_id quote.company_id f with
    | (Except.error _, db1) => (Except.error DomainError.quoteError, db1)
    | (Except.ok invoice, db1) =>
      if f.quoteUpdateFails then
        (Except.error DomainError.quoteError, db1)
      else
        let updatedQuote :=
          { quote with
            status := QStatus.converted
            converted_to_invoice := true
            invoice_id := some invoice.invoice_id }
        (Except.ok (updatedQuote, invoice), { db1 with quote := updatedQuote })

/-- A concrete settings row whose company default payment terms are 45
days, to separate the company default from the hardcoded 30. -/
def baseSettings : CompanySettings :=
  { invoicePref := "INV", next_invoice_number := 1, quotePref := "QUO",
    next_quote_number := 1, default_payment_terms := 45 }

/-- A concrete accepted, unconverted quote whose validity date already
lies in the past. -/
def acceptedQuote : Quote :=
  { quote_id := "q1", customer_id := "c", user_id := "u",
    company_id := "co", validity_date := -1, status := QStatus.accepted,
    accepted_at := some (-2), converted_to_invoice := false,
    invoice_id := none, discount_amount := none,
    discount_percentage := none, shipping_cost := none, currency := "EUR",
    exchange_rate := none, conditions := none, notes := none,
    language := "fr", template_id := none, items := [] }

/-- A concrete database slice around acceptedQuote. -/
def baseDB : DBState :=
  { quote := acceptedQuote, invoices := [], invoiceItems := [],
    settings := baseSettings, nextInvoiceId := 100, nextItemId := 500 }

/-- A conversion request that supplies no optional field. -/
def emptyConv : ConversionData :=
  { invoice_date := none, due_date := none, payment_terms := none,
    notes := none, keep_original_items := true,
    apply_current_prices := false }

/-- C9: the conversion output is independent of the
apply_current_prices flag; both branches of the conditional copy the
quote item's stored unit_price_excluding_tax, so the whole result
(including every invoice line item) is identical for true and false. -/
theorem C9_price_flag_noninterference (db : DBState) (cd : ConversionData)
    (now : Int) (f : FailureSpec) :
    convertToInvoice db { cd with apply_current_prices := true } now f =
      convertToInvoice db { cd with apply_current_prices := false } now f :=
  rfl

/-- C5: the conversion rejects any quote whose status is not accepted
(in particular pending) with a QuoteStatusError and leaves the database
untouched; it rejects a quote already flagged converted_to_invoice with
a QuoteStatusError and leaves the database untouched (so the linked
invoice is not mutated); and on an accepted, unconverted quote it
succeeds even when validity_date is in the past. -/
theorem C5_convert_guards (db : DBState) (cd : ConversionData) (now : Int) :
    (db.quote.status ≠ QStatus.accepted →
      ∀ f, convertToInvoice db cd now f =
        (Except.error DomainError.quoteStatusError, db)) ∧
    (db.quote.status = QStatus.accepted →
      db.quote.converted_to_invoice = true →
      ∀ f, convertToInvoice db cd now f =
        (Except.error DomainError.quoteStatusError, db)) ∧
    (db.quote.status = QStatus.accepted →
      db.quote.converted_to_invoice = false →
      db.quote.validity_date < now →
      resultOk (convertToInvoice db cd now
        { createInvoiceTxFails := false, quoteUpdateFails := false }).1 =
        true) := by
  refine ⟨?_, ?_, ?_⟩
  · intro h f
    simp [convertToInvoice, h]
  · intro h1 h2 f
    simp [convertToInvoice, h1, h2]
  · intro h1 h2 _
    simp [convertToInvoice, createInvoice, h1, h2, resultOk]

/-- C5 witness: a pending quote is rejected, a converted flag is
rejected without touching the database, and the expired accepted quote
converts successfully. -/
theorem C5_convert_guards_witness :
    convertToInvoice
        { baseDB with quote := { acceptedQuote with status := QStatus.pending } }
        emptyConv 0
        { createInvoiceTxFails := false, quoteUpdateFails := false } =
      (Except.error DomainError.quoteStatusError,
        { baseDB with
          quote := { acceptedQuote with status := QStatus.pending } }) ∧
    convertToInvoice
        { baseDB with
          quote := { acceptedQuote with converted_to_invoice := true } }
        emptyConv 0
        { createInvoiceTxFails := false, quoteUpdateFails := false } =
      (Except.error DomainError.quoteStatusError,
        { baseDB with
          quote := { acceptedQuote with converted_to_invoice := true } }) ∧
    resultOk (convertToInvoice baseDB emptyConv 0
      { createInvoiceTxFails := false, quoteUpdateFails := false }).1 =
      true :=
  ⟨(C5_convert_guards _ emptyConv 0).1 (by simp [acceptedQuote]) _,
    (C5_convert_guards _ emptyConv 0).2.1 (by simp [acceptedQuote])
      (by simp [acceptedQuote]) _,
    (C5_convert_guards baseDB emptyConv 0).2.2
      (by simp [baseDB, acceptedQuote]) (by simp [baseDB, acceptedQuote])
      (by simp [baseDB, acceptedQuote])⟩

/-- C2 counterexample: the quote-status update and the invoice creation
are NOT inside one transactional boundary. On the concrete accepted
quote, injecting a failure into the quote-status update (after a
successful invoice creation) makes the whole conversion fail, yet the
newly created invoice persists while the quote is unchanged: a partial
mutation that a single transaction would have rolled back. -/
theorem C2_counterexample_not_one_transaction :
    resultOk (convertToInvoice baseDB emptyConv 0
      { createInvoiceTxFails := false, quoteUpdateFails := true }).1 =
      false ∧
    (convertToInvoice baseDB emptyConv 0
      { createInvoiceTxFails := false,
        quoteUpdateFails := true }).2.invoices.length = 1 ∧
    baseDB.invoices.length = 0 ∧
    (convertToInvoice baseDB emptyConv 0
      { createInvoiceTxFails := false, quoteUpdateFails := true }).2.quote =
      baseDB.quote := by
  refine ⟨?_, ?_, rfl, ?_⟩ <;>
    simp [convertToInvoice, createInvoice, baseDB, acceptedQuote, emptyConv,
      resultOk]

/-- C2 amended: when the invoice-creation step fails, the whole
conversion fails and the quote row, the invoice table and the
invoiceItem table are unchanged — not because of a shared transaction
(the invoice service runs its own transaction on the global client, and
only the sequence counter increment survives the failure), but because
the invoice creation is executed before the quote-status update and its
exception aborts the outer transaction before any quote mutation. -/
theorem C2_create_failure_aborts_conversion (db : DBState)
    (cd : ConversionData) (now : Int) (b : Bool) :
    resultOk (convertToInvoice db cd now
      { createInvoiceTxFails := true, quoteUpdateFails := b }).1 = false ∧
    (convertToInvoice db cd now
      { createInvoiceTxFails := true, quoteUpdateFails := b }).2.quote =
      db.quote ∧
    (convertToInvoice db cd now
      { createInvoiceTxFails := true, quoteUpdateFails := b }).2.invoices =
      db.invoices ∧
    (convertToInvoice db cd now
      { createInvoiceTxFails := true,
        quoteUpdateFails := b }).2.invoiceItems = db.invoiceItems := by
  by_cases h1 : db.quote.status = QStatus.accepted
  · by_cases h2 : db.quote.converted_to_invoice
    · refine ⟨?_, ?_, ?_, ?_⟩ <;> simp [convertToInvoice, h1, h2, resultOk]
    · refine ⟨?_, ?_, ?_, ?_⟩ <;>
        simp [convertToInvoice, createInvoice, h1, h2, resultOk]
  · refine ⟨?_, ?_, ?_, ?_⟩ <;> simp [convertToInvoice, h1, resultOk]

/-- C3 counterexample: with no due_date and no payment_terms supplied,
the due date of the created invoice is now + 30 days, a hardcoded
fallback; the owning company's default payment terms (45 days in
baseSettings) are never consulted. -/
theorem C3_counterexample_hardcoded_thirty :
    ((convertToInvoice baseDB emptyConv 0
        { createInvoiceTxFails := false,
          quoteUpdateFails := false }).2.invoices.map Invoice.due_date) =
      [2592000000] ∧
    baseDB.settings.default_payment_terms = 45 ∧
    (2592000000 : Int) ≠ 45 * 86400000 := by
  refine ⟨?_, rfl, by norm_num⟩
  simp [convertToInvoice, createInvoice, baseDB, acceptedQuote, emptyConv,
    jsOrInt]

/-- C3 amended: when conversionData.due_date is absent, the new
invoice's due date is now + payment_terms days when payment_terms is
supplied and non-zero, and now + 30 days otherwise; the company default
payment terms of CompanySettings play no role. -/
theorem C3_due_date_amended (db : DBState) (cd : ConversionData)
    (now : Int) :
    db.quote.status = QStatus.accepted →
    db.quote.converted_to_invoice = false →
    cd.due_date = none →
    ((convertToInvoice db cd now
        { createInvoiceTxFails := false,
          quoteUpdateFails := false }).2.invoices.map Invoice.due_date) =
      db.invoices.map Invoice.due_date ++
        [now + jsOrInt cd.payment_terms 30 * 86400000] := by
  intro h1 h2 hdd
  simp [convertToInvoice, createInvoice, h1, h2, hdd]

/-- C3 witness: converting the concrete accepted quote with
payment_terms 10 and no due_date yields one invoice due 10 days after
now = 0. -/
theorem C3_due_date_amended_witness :
    ((convertToInvoice baseDB
        { emptyConv with payment_terms := some 10 } 0
        { createInvoiceTxFails := false,
          quoteUpdateFails := false }).2.invoices.map Invoice.due_date) =
      [864000000] := by
  have h := C3_due_date_amended baseDB
    { emptyConv with payment_terms := some 10 } 0
    (by simp [baseDB, acceptedQuote]) (by simp [baseDB, acceptedQuote]) rfl
  simpa [baseDB, jsOrInt] using h
